import Mathlib

/-!
Verification of the data-access layer of the repository (a generic
SQLAlchemy repository plus a session-lifecycle decorator).

The Python source is shallowly embedded:
* `app/database/session.py` — `DatabaseSessionManager.connection` becomes a
  pure function from the outcomes of the environment (the wrapped unit of
  work, the `SET TRANSACTION` statement, `session.commit`) to a trace of
  session operations plus the wrapper's own outcome (normal return or a
  re-raised exception).  Exceptions carry an identity (`Nat`) so that
  "re-raises the same exception" is expressible.
* `app/config.py` — `DatabaseConfig` becomes a structure of the five
  fields; Python attribute access on the settings object is modelled by a
  lookup table of the URL-producing members the class actually defines.
* `app/database/service.py` — `QueryWrapper.execute`, `DBManager.__init__`,
  `DBManager.update_by_id`, `DBManager.add_relation` and
  `DBManager.remove_relation` become pure functions over explicit session /
  instance state.
-/

namespace BigSQLAsync

/-- Outcome of a Python expression or call: a value, or a raised exception.
Exceptions are identified by a `Nat` so that re-raising the *same*
exception object is expressible. -/
inductive Py (α : Type) where
  | ok (v : α)
  | exn (e : Nat)
deriving DecidableEq, Repr

/-- Operations performed on (or around) the per-invocation session, in
order.  `methodRun sid` records that the wrapped unit of work was invoked
with session `sid` injected as the keyword argument named session. -/
inductive Ev where
  | setIsolation (level : String)
  | methodRun (sid : Nat)
  | commitOp
  | rollbackOp
  | closeOp
deriving DecidableEq, Repr

/-- Python truthiness of the `isolation_level : str | None` argument:
`None` and the empty string are falsy, every other string is truthy.
This is the test `if isolation_level:` in `connection`. -/
def pyTruthyStr : Option String → Bool
  | none => false
  | some s => !(s == "")

/-- The events produced by the `if isolation_level:` branch of the wrapper:
one `SET TRANSACTION ISOLATION LEVEL <level>` execution when the argument
is truthy, nothing otherwise. -/
def isoEvents (iso : Option String) : List Ev :=
  if pyTruthyStr iso then [Ev.setIsolation (iso.getD (""))] else []

/-- The `try:` block of `DatabaseSessionManager.connection`'s inner
`wrapper` (session.py lines 27-33), for one invocation that was handed
session `sid`:

    if isolation_level:
        await session.execute(text(f"SET TRANSACTION ISOLATION LEVEL ..."))
    result = await method(*args, session=session, **kwargs)
    if commit:
        await session.commit()
    return result

`setRes` is the outcome the database gives the `SET TRANSACTION` execution
(consulted only when the level is truthy), `method sid` the outcome of the
wrapped unit of work, `commitRes` the outcome of `session.commit()`
(consulted only when `commit` is set and the method returned).  The result
is the trace of session events together with the block's outcome. -/
def tryBody {α : Type} (iso : Option String) (commitFlag : Bool) (sid : Nat)
    (method : Nat → Py α) (setRes : Py Unit) (commitRes : Py Unit) :
    List Ev × Py α :=
  match (if pyTruthyStr iso then setRes else Py.ok ()) with
  | Py.exn e => (isoEvents iso, Py.exn e)
  | Py.ok _ =>
    match method sid with
    | Py.exn e => (isoEvents iso ++ [Ev.methodRun sid], Py.exn e)
    | Py.ok v =>
      if commitFlag then
        match commitRes with
        | Py.exn e => (isoEvents iso ++ [Ev.methodRun sid, Ev.commitOp], Py.exn e)
        | Py.ok _ => (isoEvents iso ++ [Ev.methodRun sid, Ev.commitOp], Py.ok v)
      else (isoEvents iso ++ [Ev.methodRun sid], Py.ok v)

/-- One run of the inner `wrapper` of `DatabaseSessionManager.connection`
(session.py lines 25-38) on session `sid`:

    async with self.session_factory() as session:
        try:
            ...            -- tryBody
        except Exception:
            await session.rollback()
            raise
        finally:
            await session.close()

On an exception the `except` clause rolls back and re-raises; the
`finally` clause closes the session; and leaving the `async with` block
invokes `AsyncSession.__aexit__`, which calls `session.close()` once more
(SQLAlchemy's async session context manager closes the session on exit).
Hence every path ends with two `closeOp` events. -/
def connectionWrapper {α : Type} (iso : Option String) (commitFlag : Bool) (sid : Nat)
    (method : Nat → Py α) (setRes : Py Unit) (commitRes : Py Unit) :
    List Ev × Py α :=
  match tryBody iso commitFlag sid method setRes commitRes with
  | (evs, Py.exn e) => (evs ++ [Ev.rollbackOp, Ev.closeOp, Ev.closeOp], Py.exn e)
  | (evs, Py.ok v) => (evs ++ [Ev.closeOp, Ev.closeOp], Py.ok v)

/-- State of the `async_sessionmaker`: a counter of sessions created so
far; each call hands out a fresh session identity. -/
structure FactoryState where
  counter : Nat
deriving DecidableEq, Repr

/-- `self.session_factory()`: produce a fresh session (identified by the
current counter) and advance the factory state. -/
def session_factory (st : FactoryState) : Nat × FactoryState :=
  (st.counter, ⟨st.counter + 1⟩)

/-- One full invocation of a `connection`-wrapped function: acquire a
fresh session from the factory (session.py line 26), then run the wrapper
body on it.  Returns the run (trace and outcome), the session used, and
the factory state after the invocation. -/
def connectionInvoke {α : Type} (iso : Option String) (commitFlag : Bool)
    (method : Nat → Py α) (setRes : Py Unit) (commitRes : Py Unit)
    (st : FactoryState) : (List Ev × Py α) × Nat × FactoryState :=
  match session_factory st with
  | (sid, st2) => (connectionWrapper iso commitFlag sid method setRes commitRes, sid, st2)

/-- Number of `session.close()` invocations recorded in a trace. -/
def closeCalls (evs : List Ev) : Nat :=
  evs.count Ev.closeOp

/-- Number of `session.commit()` invocations recorded in a trace. -/
def commitCount (evs : List Ev) : Nat :=
  evs.count Ev.commitOp

/-- Whether a trace contains any `SET TRANSACTION ISOLATION LEVEL`
execution. -/
def hasSetIso (evs : List Ev) : Bool :=
  evs.any (fun e => match e with
    | Ev.setIsolation _ => true
    | _ => false)

/-- Fold a trace over the session's open/closed state, counting the
open-to-closed transitions: a `closeOp` on an already-closed session is a
no-op (SQLAlchemy `close` is idempotent), so the count is the number of
times the underlying resource is actually released. -/
def releaseSteps : List Ev → Bool → Nat
  | [], _ => 0
  | Ev.closeOp :: rest, closed =>
      if closed then releaseSteps rest true else 1 + releaseSteps rest true
  | _ :: rest, closed => releaseSteps rest closed

/-- Number of actual open-to-closed releases of the session in a trace,
starting from an open session. -/
def releaseTransitions (evs : List Ev) : Nat :=
  releaseSteps evs false

/-! ## app/config.py -/

/-- The five configured fields of `DatabaseConfig` (config.py lines
18-22). -/
structure DatabaseConfig where
  DB_HOST : String
  DB_PORT : String
  DB_NAME : String
  DB_USER : String
  DB_PASSWORD : String
deriving DecidableEq, Repr

/-- The property `database_url_posgresql` (config.py lines 30-34):

    return (fstring postgresql+asyncpg://{DB_USER}:{DB_PASSWORD}@
            {DB_HOST}:{DB_PORT}/{DB_NAME})
-/
def database_url_posgresql (c : DatabaseConfig) : String :=
  "postgresql+asyncpg://" ++ c.DB_USER ++ ":" ++ c.DB_PASSWORD ++ "@"
    ++ c.DB_HOST ++ ":" ++ c.DB_PORT ++ "/" ++ c.DB_NAME

/-- The zero-argument URL-returning members `DatabaseConfig` defines
(config.py): only the property `database_url_posgresql`.  Python attribute
access `settings.<name>()` resolves through this table; any name the class
does not define raises `AttributeError`. -/
def configUrlMembers : List (String × (DatabaseConfig → String)) :=
  [("database_url_posgresql", database_url_posgresql)]

/-- Resolve `settings.<name>()` against the members `DatabaseConfig`
actually defines. -/
def callUrlMember (c : DatabaseConfig) (name : String) : Except String String :=
  match configUrlMembers.lookup name with
  | some f => Except.ok (f c)
  | none => Except.error ("AttributeError: " ++ name)

/-- session.py line 6: `SQL_DATABASE_URL = settings.get_db_url()` — the
value the engine is created from (session.py line 8). -/
def SQL_DATABASE_URL (c : DatabaseConfig) : Except String String :=
  callUrlMember c ("get_db_url")

/-! ## app/database/service.py — QueryWrapper -/

/-- Log events emitted through `loguru.logger` by `QueryWrapper.execute`. -/
inductive LogEv where
  | debug (msg : String)
  | error (msg : String)
deriving DecidableEq, Repr

/-- Outcome of `session.execute(query)` as seen by the
`except SQLAlchemyError` clause: success, a `SQLAlchemyError` (caught,
logged and re-raised), or any other exception (not caught by that
clause). -/
inductive ExecOutcome (R : Type) where
  | ok (r : R)
  | sqlError (e : Nat)
  | otherError (e : Nat)
deriving DecidableEq, Repr

/-- `QueryWrapper.__init__` state (service.py lines 33-43): the wrapped
query, the model name, and the derived log prefix
(`f"[{model_name}] "` when the name is truthy, else the empty string;
stored here as `logTag`, source attribute `log_prefix`). -/
structure QueryWrapper (Q : Type) where
  query : Q
  model_name : String
  logTag : String
deriving DecidableEq, Repr

/-- `QueryWrapper(query, model_name)` (service.py lines 33-43). -/
def mkQueryWrapper {Q : Type} (query : Q) (model_name : String) : QueryWrapper Q :=
  { query := query
    model_name := model_name
    logTag := if model_name == "" then "" else "[" ++ model_name ++ "] " }

/-- `QueryWrapper.execute` (service.py lines 45-64):

    try:
        logger.debug(...)
        result = await session.execute(self.query)
        return result
    except SQLAlchemyError as e:
        logger.error(...)
        raise e

`sessionExec` models `session.execute`.  Returns the emitted log messages
together with the outcome. -/
def QueryWrapper.execute {Q R : Type} (w : QueryWrapper Q)
    (sessionExec : Q → ExecOutcome R) : List LogEv × ExecOutcome R :=
  let dbg := LogEv.debug (w.logTag ++ "Выполнение запроса")
  match sessionExec w.query with
  | ExecOutcome.ok r => ([dbg], ExecOutcome.ok r)
  | ExecOutcome.sqlError e =>
      ([dbg, LogEv.error (w.logTag ++ "Ошибка при выполнении запроса: " ++ toString e)],
       ExecOutcome.sqlError e)
  | ExecOutcome.otherError e => ([dbg], ExecOutcome.otherError e)

/-! ## app/database/service.py — DBManager construction -/

/-- A Python class object passed as the `model` argument of
`DBManager.__init__`: its `__name__` and whether `issubclass(model, Base)`
holds.  `Base` itself (app/database/model.py) is not part of the provided
sources; modelled from the spec: the entity type must be a subtype of the
ORM base class, so the subclass test is abstracted as a Boolean attribute
of the class. -/
structure PyClass where
  clsName : String
  subclassOfBase : Bool
deriving DecidableEq, Repr

/-- Result of `DBManager.__init__`: either the constructed manager (which
stores exactly the model) or a raised `ValueError`. -/
inductive InitResult where
  | ok (model : PyClass)
  | valueError (msg : String)
deriving DecidableEq, Repr

/-- `DBManager.__init__` (service.py lines 153-165):

    if not model or not issubclass(model, Base):
        raise ValueError(...)
    self.model = model

`none` models a falsy `model` argument (`None`); a class object is always
truthy, so for `some m` only the subclass test decides (matching the
short-circuit `or`). -/
def dbManagerInit (model : Option PyClass) : InitResult :=
  match model with
  | none => InitResult.valueError ("Модель должна быть указана и наследоваться от Base")
  | some m =>
      if !m.subclassOfBase then
        InitResult.valueError ("Модель должна быть указана и наследоваться от Base")
      else InitResult.ok m

/-- Whether `dbManagerInit` raised `ValueError`. -/
def isValueError : InitResult → Bool
  | InitResult.valueError _ => true
  | InitResult.ok _ => false

/-! ## app/database/service.py — relation management -/

/-- The value of a relation attribute: a list (one-to-many) or a scalar
(one-to-one, possibly unset). -/
inductive RelValue (I : Type) where
  | list (l : List I)
  | scalar (v : Option I)
deriving DecidableEq, Repr

/-- An ORM instance, as far as `add_relation` / `remove_relation` see it:
its named relation attributes.  `hasattr` is lookup success; `setattr`
replaces the value of the (unique) attribute of that name. -/
abbrev PyInstance (I : Type) : Type := List (String × RelValue I)

/-- `getattr(instance, relation_name)` restricted to relation attributes;
`none` models `hasattr(instance, relation_name)` being false. -/
def lookupAttr {I : Type} : PyInstance I → String → Option (RelValue I)
  | [], _ => none
  | (k, v) :: rest, n => if k == n then some v else lookupAttr rest n

/-- `setattr(instance, relation_name, value)` (and, for the list case, the
in-place mutation of the list object): replace the first attribute of that
name. -/
def setAttr {I : Type} : PyInstance I → String → RelValue I → PyInstance I
  | [], _, _ => []
  | (k, v) :: rest, n, nv =>
      if k == n then (k, nv) :: rest else (k, v) :: setAttr rest n nv

/-- `DBManager.add_relation` (service.py lines 561-601):

    if not hasattr(instance, relation_name): raise ValueError(...)
    relation = getattr(instance, relation_name)
    if isinstance(relation, list):
        if related_instance not in relation:
            relation.append(related_instance)
    else:
        setattr(instance, relation_name, related_instance)
    await session.flush()

The trailing `session.flush()` persists pending changes and does not alter
the relation value; it is not modelled. -/
def add_relation {I : Type} [DecidableEq I] (inst : PyInstance I)
    (relation_name : String) (related_instance : I) :
    Except String (PyInstance I) :=
  match lookupAttr inst relation_name with
  | none => Except.error ("Связь " ++ relation_name ++ " не найдена")
  | some (RelValue.list l) =>
      Except.ok (setAttr inst relation_name
        (RelValue.list (if related_instance ∈ l then l else l ++ [related_instance])))
  | some (RelValue.scalar _) =>
      Except.ok (setAttr inst relation_name (RelValue.scalar (some related_instance)))

/-- `DBManager.remove_relation` (service.py lines 603-639):

    if not hasattr(instance, relation_name): raise ValueError(...)
    relation = getattr(instance, relation_name)
    if isinstance(relation, list):
        if related_instance in relation:
            relation.remove(related_instance)
    else:
        if getattr(instance, relation_name) == related_instance:
            setattr(instance, relation_name, None)
    await session.flush()

`list.remove` removes the first occurrence (`List.erase`); the scalar
branch performs no `setattr` when the stored value differs. -/
def remove_relation {I : Type} [DecidableEq I] (inst : PyInstance I)
    (relation_name : String) (related_instance : I) :
    Except String (PyInstance I) :=
  match lookupAttr inst relation_name with
  | none => Except.error ("Связь " ++ relation_name ++ " не найдена")
  | some (RelValue.list l) =>
      Except.ok (setAttr inst relation_name
        (RelValue.list (if related_instance ∈ l then l.erase related_instance else l)))
  | some (RelValue.scalar v) =>
      Except.ok (if v = some related_instance
        then setAttr inst relation_name (RelValue.scalar none)
        else inst)

/-! ## app/database/service.py — update_by_id -/

/-- A field of the pydantic update schema as `model_dump` sees it: its
name, whether the caller set it (`exclude_unset`), and its value
(`none` meaning Python `None`, dropped by `exclude_none`). -/
structure DumpField (V : Type) where
  name : String
  isSet : Bool
  value : Option V
deriving DecidableEq, Repr

/-- `values.model_dump(exclude_unset=True, exclude_none=True)` (service.py
line 416): the set, non-None fields as a dict. -/
def model_dump_upd {V : Type} (fields : List (DumpField V)) : List (String × V) :=
  fields.filterMap (fun f =>
    if f.isSet then f.value.map (fun v => (f.name, v)) else none)

/-- Database operations `update_by_id` can perform on the session. -/
inductive DbOp where
  | getOp (index : Nat)
  | flushOp
  | refreshOp
  | rollbackOp
deriving DecidableEq, Repr

/-- Session state as `update_by_id` sees it: the identity-keyed store of
records (a record is its named column values) and the log of operations
performed on the session. -/
structure DbState (V : Type) where
  store : List (Nat × List (String × V))
  log : List DbOp
deriving DecidableEq, Repr

/-- `session.get(self.model, index)`: first record with the given key. -/
def storeGet {V : Type} : List (Nat × List (String × V)) → Nat → Option (List (String × V))
  | [], _ => none
  | (k, r) :: rest, index => if k == index then some r else storeGet rest index

/-- Replace the record stored under a key. -/
def storePut {V : Type} :
    List (Nat × List (String × V)) → Nat → List (String × V) → List (Nat × List (String × V))
  | [], _, _ => []
  | (k, r) :: rest, index, nr =>
      if k == index then (k, nr) :: rest else (k, r) :: storePut rest index nr

/-- `hasattr(find_object, key)` restricted to column values. -/
def recHasKey {V : Type} (r : List (String × V)) (k : String) : Bool :=
  r.any (fun p => p.1 == k)

/-- `setattr(find_object, key, value)`: replace the first column of that
name. -/
def recSet {V : Type} : List (String × V) → String → V → List (String × V)
  | [], _, _ => []
  | (k, v) :: rest, key, nv =>
      if k == key then (k, nv) :: rest else (k, v) :: recSet rest key nv

/-- The `for key, value in values_dict.items():` loop of `update_by_id`
(service.py lines 426-430): `setattr` for keys the object has, a logged
warning (no state change) otherwise. -/
def applyUpdates {V : Type} (r : List (String × V)) (d : List (String × V)) :
    List (String × V) :=
  d.foldl (fun acc p => if recHasKey acc p.1 then recSet acc p.1 p.2 else acc) r

/-- `DBManager.update_by_id` (service.py lines 401-438):

    values_dict = values.model_dump(exclude_unset=True, exclude_none=True)
    if not values_dict:
        logger.warning(...); return None
    try:
        find_object = await session.get(self.model, index)
        if not find_object:
            logger.warning(...); return None
        for key, value in values_dict.items():
            if hasattr(find_object, key): setattr(find_object, key, value)
            else: logger.warning(...)
        await session.flush()
        await session.refresh(find_object)
        return find_object
    except SQLAlchemyError as e:
        logger.error(...); await session.rollback(); raise e

`flushRes` models the outcome of `session.flush()` (the one fallible
session call after the writes); `session.refresh` re-reads the flushed
object, leaving it as written here. -/
def update_by_id {V : Type} (st : DbState V) (index : Nat)
    (values : List (DumpField V)) (flushRes : Py Unit) :
    DbState V × Py (Option (List (String × V))) :=
  let values_dict := model_dump_upd values
  if values_dict.isEmpty then (st, Py.ok none)
  else
    match storeGet st.store index with
    | none => ({ st with log := st.log ++ [DbOp.getOp index] }, Py.ok none)
    | some find_object =>
        let updated := applyUpdates find_object values_dict
        match flushRes with
        | Py.exn e =>
            ({ st with log := st.log ++ [DbOp.getOp index, DbOp.rollbackOp] }, Py.exn e)
        | Py.ok _ =>
            ({ store := storePut st.store index updated,
               log := st.log ++ [DbOp.getOp index, DbOp.flushOp, DbOp.refreshOp] },
             Py.ok (some updated))

/-! ## Helper lemmas on the wrapper's traces -/

/-- Every event of `isoEvents` is a `SET TRANSACTION` execution. -/
theorem isoEvents_mem {iso : Option String} {e : Ev} (h : e ∈ isoEvents iso) :
    ∃ s, e = Ev.setIsolation s := by
  unfold isoEvents at h
  cases ht : pyTruthyStr iso <;> rw [ht] at h <;> simp at h
  exact ⟨iso.getD (""), h⟩

/-- The `try:` block's trace is the isolation events followed by at most a
method run and a commit. -/
theorem tryBody_shape {α : Type} (iso : Option String) (cf : Bool) (sid : Nat)
    (method : Nat → Py α) (setRes commitRes : Py Unit) :
    ∃ tail,
      (tryBody iso cf sid method setRes commitRes).1 = isoEvents iso ++ tail
      ∧ (tail = [] ∨ tail = [Ev.methodRun sid] ∨ tail = [Ev.methodRun sid, Ev.commitOp])
      ∧ (cf = false → Ev.commitOp ∉ tail) := by
  unfold tryBody
  split
  · exact ⟨[], by simp, Or.inl rfl, by simp⟩
  · split
    · exact ⟨[Ev.methodRun sid], by simp, Or.inr (Or.inl rfl), by simp⟩
    · split
      · split
        · exact ⟨[Ev.methodRun sid, Ev.commitOp], by simp, Or.inr (Or.inr rfl),
            by intro h2; simp_all⟩
        · exact ⟨[Ev.methodRun sid, Ev.commitOp], by simp, Or.inr (Or.inr rfl),
            by intro h2; simp_all⟩
      · exact ⟨[Ev.methodRun sid], by simp, Or.inr (Or.inl rfl), by simp⟩

/-- Trace shape of one wrapper run: a prefix `p` (isolation events, method
run, possibly a commit) that contains no close, followed by the ending
(`rollback` then the two closes on the exception path, the two closes on
the normal path). -/
theorem connectionWrapper_shape {α : Type} (iso : Option String) (cf : Bool) (sid : Nat)
    (method : Nat → Py α) (setRes commitRes : Py Unit) :
    ∃ p ending,
      (connectionWrapper iso cf sid method setRes commitRes).1 = p ++ ending
      ∧ (ending = [Ev.rollbackOp, Ev.closeOp, Ev.closeOp] ∨ ending = [Ev.closeOp, Ev.closeOp])
      ∧ Ev.closeOp ∉ p
      ∧ (cf = false → Ev.commitOp ∉ p)
      ∧ (∀ s, Ev.methodRun s ∈ p → s = sid)
      ∧ (pyTruthyStr iso = false → hasSetIso p = false)
      ∧ (∀ s, iso = some s → pyTruthyStr iso = true →
          ∃ t, p = Ev.setIsolation s :: t ∧ hasSetIso t = false) := by
  obtain ⟨tail, htr, hcases, hcommit⟩ :=
    tryBody_shape iso cf sid method setRes commitRes
  have hclose : Ev.closeOp ∉ isoEvents iso ++ tail := by
    intro h
    rcases List.mem_append.mp h with h | h
    · obtain ⟨s, hs⟩ := isoEvents_mem h
      exact Ev.noConfusion hs
    · rcases hcases with rfl | rfl | rfl <;> simp at h
  have hcomm : cf = false → Ev.commitOp ∉ isoEvents iso ++ tail := by
    intro hcf h
    rcases List.mem_append.mp h with h | h
    · obtain ⟨s, hs⟩ := isoEvents_mem h
      exact Ev.noConfusion hs
    · exact hcommit hcf h
  have hmrun : ∀ s, Ev.methodRun s ∈ isoEvents iso ++ tail → s = sid := by
    intro s h
    rcases List.mem_append.mp h with h | h
    · obtain ⟨s2, hs⟩ := isoEvents_mem h
      exact Ev.noConfusion hs
    · rcases hcases with rfl | rfl | rfl <;> simp at h <;> exact h
  have htailSet : hasSetIso tail = false := by
    rcases hcases with rfl | rfl | rfl <;> rfl
  have hsetFalse : pyTruthyStr iso = false → hasSetIso (isoEvents iso ++ tail) = false := by
    intro ht
    unfold hasSetIso at htailSet ⊢
    rw [List.any_append, htailSet]
    unfold isoEvents
    rw [ht]
    rfl
  have hsetTrue : ∀ s, iso = some s → pyTruthyStr iso = true →
      ∃ t, isoEvents iso ++ tail = Ev.setIsolation s :: t ∧ hasSetIso t = false := by
    intro s hsome ht
    refine ⟨tail, ?_, htailSet⟩
    unfold isoEvents
    rw [ht, hsome]
    simp
  unfold connectionWrapper
  rcases hres : tryBody iso cf sid method setRes commitRes with ⟨evs, r⟩
  have hevs : evs = isoEvents iso ++ tail := by rw [hres] at htr; exact htr
  subst hevs
  cases r with
  | exn e =>
      exact ⟨isoEvents iso ++ tail, [Ev.rollbackOp, Ev.closeOp, Ev.closeOp],
        by simp, Or.inl rfl, hclose, hcomm, hmrun, hsetFalse, hsetTrue⟩
  | ok v =>
      exact ⟨isoEvents iso ++ tail, [Ev.closeOp, Ev.closeOp],
        by simp, Or.inr rfl, hclose, hcomm, hmrun, hsetFalse, hsetTrue⟩

/-- Prepending close-free events does not change the number of release
transitions. -/
theorem releaseSteps_append_of_not_mem (l rest : List Ev) (b : Bool)
    (h : Ev.closeOp ∉ l) : releaseSteps (l ++ rest) b = releaseSteps rest b := by
  induction l generalizing b with
  | nil => rfl
  | cons a t ih =>
      have ha : a ≠ Ev.closeOp := fun hac => h (hac ▸ List.mem_cons_self a t)
      have ht : Ev.closeOp ∉ t := fun htm => h (List.mem_cons_of_mem a htm)
      cases a with
      | closeOp => exact absurd rfl ha
      | setIsolation s => simpa [releaseSteps] using ih b ht
      | methodRun s => simpa [releaseSteps] using ih b ht
      | commitOp => simpa [releaseSteps] using ih b ht
      | rollbackOp => simpa [releaseSteps] using ih b ht

/-- `isoEvents` never contains a commit. -/
theorem isoEvents_count_commit (iso : Option String) :
    (isoEvents iso).count Ev.commitOp = 0 :=
  List.count_eq_zero.mpr (fun h => by
    obtain ⟨s, hs⟩ := isoEvents_mem h
    exact Ev.noConfusion hs)

/-! ## Claims about DatabaseSessionManager.connection -/

/-- C1: if the wrapped method (or the commit) raises, the wrapper performs
a rollback on the session and then re-raises that same exception to the
caller (the rollback precedes the re-raise: every traced event happens
before the wrapper finishes). -/
theorem connection_rollback_on_exception {α : Type} (iso : Option String) (cf : Bool)
    (sid : Nat) (method : Nat → Py α) (commitRes : Py Unit) (e : Nat)
    (h : method sid = Py.exn e
       ∨ (cf = true ∧ commitRes = Py.exn e ∧ ∃ v, method sid = Py.ok v)) :
    ∃ p, connectionWrapper iso cf sid method (Py.ok ()) commitRes
        = (p ++ [Ev.rollbackOp, Ev.closeOp, Ev.closeOp], Py.exn e) := by
  rcases h with hm | ⟨hcf, hcr, v, hm⟩
  · refine ⟨isoEvents iso ++ [Ev.methodRun sid], ?_⟩
    unfold connectionWrapper tryBody
    rw [ite_self, hm]
  · refine ⟨isoEvents iso ++ [Ev.methodRun sid, Ev.commitOp], ?_⟩
    unfold connectionWrapper tryBody
    rw [ite_self, hm, hcf, hcr]
    simp

/-- Witness for C1 at a concrete input: a unit of work raising exception 7
makes the wrapper roll back and re-raise exception 7. -/
theorem connection_rollback_on_exception_witness :
    ∃ p, connectionWrapper none false 0 (fun _ => (Py.exn 7 : Py Nat)) (Py.ok ()) (Py.ok ())
        = (p ++ [Ev.rollbackOp, Ev.closeOp, Ev.closeOp], Py.exn 7) :=
  connection_rollback_on_exception none false 0 (fun _ => Py.exn 7) (Py.ok ()) 7
    (Or.inl rfl)

/-- C2 counterexample: on a concrete invocation (no isolation level, no
auto-commit, a unit of work returning normally) the wrapper invokes
`session.close()` twice — once in the `finally:` clause and once when the
`async with` block exits — so the session is not "never closed a second
time". -/
theorem connection_close_called_twice :
    closeCalls (connectionWrapper none false 0 (fun _ => (Py.ok 1 : Py Nat))
      (Py.ok ()) (Py.ok ())).1 = 2
    ∧ closeCalls (connectionWrapper none false 0 (fun _ => (Py.ok 1 : Py Nat))
      (Py.ok ()) (Py.ok ())).1 ≠ 1 := by
  decide

/-- C2 amended: on every invocation, whether the unit of work returns or
raises, the underlying session resource is released exactly once (one
open-to-closed transition; the session is never left open, every trace
ends with close), but `session.close()` is invoked twice — by the
`finally:` clause and again by the `async with` exit — the second call
being an idempotent no-op on the already-closed session. -/
theorem connection_session_released_once {α : Type} (iso : Option String) (cf : Bool)
    (sid : Nat) (method : Nat → Py α) (setRes commitRes : Py Unit) :
    releaseTransitions (connectionWrapper iso cf sid method setRes commitRes).1 = 1
    ∧ closeCalls (connectionWrapper iso cf sid method setRes commitRes).1 = 2
    ∧ ∃ p, (connectionWrapper iso cf sid method setRes commitRes).1
        = p ++ [Ev.closeOp, Ev.closeOp] := by
  obtain ⟨p, ending, htr, hend, hclosep, _, _, _, _⟩ :=
    connectionWrapper_shape iso cf sid method setRes commitRes
  refine ⟨?_, ?_, ?_⟩
  · unfold releaseTransitions
    rw [htr, releaseSteps_append_of_not_mem p ending false hclosep]
    rcases hend with rfl | rfl <;> rfl
  · unfold closeCalls
    rw [htr, List.count_append, List.count_eq_zero.mpr hclosep]
    rcases hend with rfl | rfl <;> rfl
  · rcases hend with rfl | rfl
    · exact ⟨p ++ [Ev.rollbackOp], by rw [htr]; simp⟩
    · exact ⟨p, htr⟩

/-- C4: with `commit=True` and a normally-returning unit of work (and no
failure of the commit itself, which claim C1 governs), the session is
committed exactly once, after the method ran and before the wrapper
returns the method's result unchanged; with `commit=False` the wrapper
never commits, whatever happens. -/
theorem connection_commit_semantics {α : Type} (iso : Option String) (sid : Nat)
    (method : Nat → Py α) (v : α) (hm : method sid = Py.ok v) :
    (connectionWrapper iso true sid method (Py.ok ()) (Py.ok ())
       = (isoEvents iso ++ [Ev.methodRun sid, Ev.commitOp, Ev.closeOp, Ev.closeOp],
          Py.ok v))
    ∧ commitCount (connectionWrapper iso true sid method (Py.ok ()) (Py.ok ())).1 = 1
    ∧ ∀ (iso2 : Option String) (sid2 : Nat) (m2 : Nat → Py α) (s2 c2 : Py Unit),
        commitCount (connectionWrapper iso2 false sid2 m2 s2 c2).1 = 0 := by
  have htr : connectionWrapper iso true sid method (Py.ok ()) (Py.ok ())
      = (isoEvents iso ++ [Ev.methodRun sid, Ev.commitOp, Ev.closeOp, Ev.closeOp],
         Py.ok v) := by
    unfold connectionWrapper tryBody
    rw [ite_self, hm]
    simp
  refine ⟨htr, ?_, ?_⟩
  · unfold commitCount
    rw [htr, List.count_append, isoEvents_count_commit]
    rfl
  · intro iso2 sid2 m2 s2 c2
    obtain ⟨p, ending, htr2, hend, _, hcomm, _, _, _⟩ :=
      connectionWrapper_shape iso2 false sid2 m2 s2 c2
    unfold commitCount
    rw [htr2, List.count_append, List.count_eq_zero.mpr (hcomm rfl)]
    rcases hend with rfl | rfl <;> rfl

/-- Witness for C4 at a concrete input: with `commit=True` and a unit of
work returning 42, the trace is one method run, one commit, two closes,
and the result is 42. -/
theorem connection_commit_semantics_witness :
    connectionWrapper none true 0 (fun _ => (Py.ok 42 : Py Nat)) (Py.ok ()) (Py.ok ())
      = (isoEvents none ++ [Ev.methodRun 0, Ev.commitOp, Ev.closeOp, Ev.closeOp],
         Py.ok 42) :=
  (connection_commit_semantics none 0 (fun _ => Py.ok 42) 42 rfl).1

/-- C5 counterexample: `isolation_level` equal to the empty string is not
`None`, yet the wrapper executes no `SET TRANSACTION ISOLATION LEVEL`
statement (the guard `if isolation_level:` tests Python truthiness, not
non-None-ness). -/
theorem connection_isolation_empty_not_executed :
    hasSetIso (connectionWrapper (some ("")) false 0 (fun _ => (Py.ok 1 : Py Nat))
      (Py.ok ()) (Py.ok ())).1 = false
    ∧ (some ("") : Option String) ≠ none := by
  decide

/-- C5 amended: with a truthy (non-None and non-empty) `isolation_level`,
the `SET TRANSACTION ISOLATION LEVEL <level>` statement is executed on the
session before anything else — in particular before the wrapped unit of
work runs; with a falsy `isolation_level` (`None` or the empty string) no
such statement is ever executed. -/
theorem connection_isolation_semantics {α : Type} (iso : Option String) (cf : Bool)
    (sid : Nat) (method : Nat → Py α) (setRes commitRes : Py Unit) :
    (pyTruthyStr iso = false →
       hasSetIso (connectionWrapper iso cf sid method setRes commitRes).1 = false)
    ∧ (∀ s, iso = some s → pyTruthyStr iso = true →
       ∃ t, (connectionWrapper iso cf sid method setRes commitRes).1
           = Ev.setIsolation s :: t ∧ hasSetIso t = false) := by
  obtain ⟨p, ending, htr, hend, _, _, _, hfalse, htrue⟩ :=
    connectionWrapper_shape iso cf sid method setRes commitRes
  have hendSet : hasSetIso ending = false := by
    rcases hend with rfl | rfl <;> rfl
  constructor
  · intro ht
    rw [htr]
    unfold hasSetIso at hfalse hendSet ⊢
    rw [List.any_append, hfalse ht, hendSet]
    rfl
  · intro s hsome ht
    obtain ⟨t, hpt, htSet⟩ := htrue s hsome ht
    refine ⟨t ++ ending, ?_, ?_⟩
    · rw [htr, hpt]
      simp
    · unfold hasSetIso at htSet hendSet ⊢
      rw [List.any_append, htSet, hendSet]
      rfl

/-- Witness for C5 at a concrete input: a `SERIALIZABLE` isolation level
is set first, and nowhere later in the trace. -/
theorem connection_isolation_semantics_witness :
    ∃ t, (connectionWrapper (some ("SERIALIZABLE")) false 0
        (fun _ => (Py.ok 1 : Py Nat)) (Py.ok ()) (Py.ok ())).1
      = Ev.setIsolation ("SERIALIZABLE") :: t ∧ hasSetIso t = false :=
  (connection_isolation_semantics (some ("SERIALIZABLE")) false 0
      (fun _ => Py.ok 1) (Py.ok ()) (Py.ok ())).2 ("SERIALIZABLE") rfl (by decide)

/-- C8: each invocation of a `connection`-wrapped function takes a fresh
session from the factory — two successive invocations never receive the
same session — and the unit of work is invoked with exactly the session
acquired for that invocation. -/
theorem connection_fresh_session {α : Type} (st : FactoryState)
    (i1 i2 : Option String) (c1 c2 : Bool) (m1 m2 : Nat → Py α)
    (s1 s2 cr1 cr2 : Py Unit) :
    (connectionInvoke i1 c1 m1 s1 cr1 st).2.1
      ≠ (connectionInvoke i2 c2 m2 s2 cr2
          ((connectionInvoke i1 c1 m1 s1 cr1 st).2.2)).2.1
    ∧ (∀ s, Ev.methodRun s ∈ (connectionInvoke i1 c1 m1 s1 cr1 st).1.1
        → s = (connectionInvoke i1 c1 m1 s1 cr1 st).2.1) := by
  constructor
  · show st.counter ≠ st.counter + 1
    omega
  · intro s h
    obtain ⟨p, ending, htr, hend, _, _, hmr, _, _⟩ :=
      connectionWrapper_shape i1 c1 st.counter m1 s1 cr1
    show s = st.counter
    have h2 : Ev.methodRun s ∈ (connectionWrapper i1 c1 st.counter m1 s1 cr1).1 := h
    rw [htr] at h2
    rcases List.mem_append.mp h2 with h3 | h3
    · exact hmr s h3
    · rcases hend with rfl | rfl <;> simp at h3

/-- Witness for C8 at a concrete input: starting from a fresh factory, the
first and second invocations use different sessions. -/
theorem connection_fresh_session_witness :
    (connectionInvoke none false (fun _ => (Py.ok 0 : Py Nat)) (Py.ok ()) (Py.ok ())
        ⟨0⟩).2.1
      ≠ (connectionInvoke none false (fun _ => (Py.ok 0 : Py Nat)) (Py.ok ()) (Py.ok ())
          ((connectionInvoke none false (fun _ => (Py.ok 0 : Py Nat)) (Py.ok ())
            (Py.ok ()) ⟨0⟩).2.2)).2.1 :=
  (connection_fresh_session ⟨0⟩ none none false false (fun _ => Py.ok 0)
    (fun _ => Py.ok 0) (Py.ok ()) (Py.ok ()) (Py.ok ()) (Py.ok ())).1

/-! ## Claims about the configuration and the engine URL -/

/-- C3 (code bug): `DatabaseConfig.database_url_posgresql` composes the
connection URL from the five fields exactly as claimed, but session.py
creates the engine from `settings.get_db_url()` — a member
`DatabaseConfig` does not define — so `SQL_DATABASE_URL` raises
`AttributeError` instead of being that URL. -/
theorem sql_database_url_attribute_error :
    (∀ c : DatabaseConfig,
        SQL_DATABASE_URL c = Except.error ("AttributeError: get_db_url"))
    ∧ database_url_posgresql ⟨"h", "5432", "d", "u", "pw"⟩
        = "postgresql+asyncpg://u:pw@h:5432/d"
    ∧ configUrlMembers.lookup ("get_db_url") = none
    ∧ (∀ c : DatabaseConfig,
        callUrlMember c ("database_url_posgresql")
          = Except.ok (database_url_posgresql c)) := by
  refine ⟨fun c => rfl, by decide, rfl, fun c => rfl⟩

/-! ## Claims about DBManager construction -/

/-- C6: `DBManager.__init__` raises `ValueError` exactly when the model
argument is falsy or not a subclass of `Base`; otherwise construction
succeeds and stores exactly the given model — nothing else is checked or
done. -/
theorem dbmanager_init_check (model : Option PyClass) :
    (isValueError (dbManagerInit model) = true
       ↔ model = none ∨ ∃ m, model = some m ∧ m.subclassOfBase = false)
    ∧ (∀ m, model = some m → m.subclassOfBase = true →
        dbManagerInit model = InitResult.ok m) := by
  constructor
  · cases model with
    | none => simp [dbManagerInit, isValueError]
    | some m =>
        cases hsc : m.subclassOfBase <;> simp [dbManagerInit, isValueError, hsc]
  · intro m hm hsc
    subst hm
    simp [dbManagerInit, hsc]

/-- Witness for C6 at concrete inputs: a Base-derived class is accepted
and stored, a falsy model raises `ValueError`. -/
theorem dbmanager_init_check_witness :
    dbManagerInit (some ⟨"User", true⟩) = InitResult.ok ⟨"User", true⟩
    ∧ isValueError (dbManagerInit none) = true :=
  ⟨(dbmanager_init_check (some ⟨"User", true⟩)).2 ⟨"User", true⟩ rfl rfl,
   (dbmanager_init_check none).1.mpr (Or.inl rfl)⟩

/-! ## Claims about QueryWrapper -/

/-- C7: `QueryWrapper.execute` returns the underlying result unmodified
when execution succeeds; when execution raises a `SQLAlchemyError` it logs
the error and re-raises that same exception. -/
theorem querywrapper_execute_semantics {Q R : Type} (w : QueryWrapper Q)
    (sessionExec : Q → ExecOutcome R) :
    (∀ r, sessionExec w.query = ExecOutcome.ok r →
        QueryWrapper.execute w sessionExec
          = ([LogEv.debug (w.logTag ++ "Выполнение запроса")], ExecOutcome.ok r))
    ∧ (∀ e, sessionExec w.query = ExecOutcome.sqlError e →
        QueryWrapper.execute w sessionExec
          = ([LogEv.debug (w.logTag ++ "Выполнение запроса"),
              LogEv.error (w.logTag ++ "Ошибка при выполнении запроса: " ++ toString e)],
             ExecOutcome.sqlError e)) := by
  constructor
  · intro r h
    simp [QueryWrapper.execute, h]
  · intro e h
    simp [QueryWrapper.execute, h]

/-- Witness for C7 at concrete inputs: success returns the result
unmodified; a `SQLAlchemyError` with identity 3 is logged and re-raised
with identity 3. -/
theorem querywrapper_execute_semantics_witness :
    QueryWrapper.execute (mkQueryWrapper (5 : Nat) ("User"))
        (fun _ => (ExecOutcome.ok 11 : ExecOutcome Nat))
      = ([LogEv.debug ((mkQueryWrapper (5 : Nat) ("User")).logTag
            ++ "Выполнение запроса")], ExecOutcome.ok 11)
    ∧ (QueryWrapper.execute (mkQueryWrapper (5 : Nat) ("User"))
        (fun _ => (ExecOutcome.sqlError 3 : ExecOutcome Nat))).2
      = ExecOutcome.sqlError 3 :=
  ⟨(querywrapper_execute_semantics (mkQueryWrapper 5 ("User")) _).1 11 rfl,
   by rw [(querywrapper_execute_semantics (mkQueryWrapper 5 ("User")) _).2 3 rfl]⟩

/-! ## Claims about relation management -/

/-- Writing back the value an attribute already has leaves the instance
unchanged. -/
theorem setAttr_lookup_self {I : Type} (inst : PyInstance I) (n : String)
    (v : RelValue I) (h : lookupAttr inst n = some v) : setAttr inst n v = inst := by
  induction inst with
  | nil => simp [lookupAttr] at h
  | cons p rest ih =>
      rcases p with ⟨k, pv⟩
      by_cases hk : k == n
      · unfold lookupAttr at h
        rw [if_pos hk] at h
        unfold setAttr
        rw [if_pos hk, Option.some.inj h]
      · unfold lookupAttr at h
        rw [if_neg hk] at h
        unfold setAttr
        rw [if_neg hk, ih h]

/-- C9: `add_relation` of an already-present instance on a list relation,
`remove_relation` of an absent instance on a list relation, and
`remove_relation` on a scalar relation that holds a different value, all
leave the instance unchanged. -/
theorem relation_ops_idempotent {I : Type} [DecidableEq I] (inst : PyInstance I)
    (relation_name : String) (related : I) :
    (∀ l, lookupAttr inst relation_name = some (RelValue.list l) → related ∈ l →
        add_relation inst relation_name related = Except.ok inst)
    ∧ (∀ l, lookupAttr inst relation_name = some (RelValue.list l) → related ∉ l →
        remove_relation inst relation_name related = Except.ok inst)
    ∧ (∀ v, lookupAttr inst relation_name = some (RelValue.scalar v) →
        v ≠ some related →
        remove_relation inst relation_name related = Except.ok inst) := by
  refine ⟨?_, ?_, ?_⟩
  · intro l hl hmem
    unfold add_relation
    rw [hl]
    simp only [if_pos hmem]
    rw [setAttr_lookup_self inst relation_name (RelValue.list l) hl]
  · intro l hl hmem
    unfold remove_relation
    rw [hl]
    simp only [if_neg hmem]
    rw [setAttr_lookup_self inst relation_name (RelValue.list l) hl]
  · intro v hl hv
    unfold remove_relation
    rw [hl]
    simp only [if_neg hv]

/-- Witness for C9 at concrete inputs: on `roles = [1, 2]`, adding the
already-present 1 changes nothing. -/
theorem relation_ops_idempotent_witness :
    add_relation [(("roles" : String), RelValue.list [1, 2])] ("roles") (1 : Nat)
      = Except.ok [(("roles" : String), RelValue.list [1, 2])] :=
  (relation_ops_idempotent [(("roles" : String), RelValue.list [1, 2])]
      ("roles") 1).1 [1, 2] rfl (by decide)

/-! ## Claims about update_by_id -/

/-- C10: an update schema that dumps to no set, non-None fields makes
`update_by_id` return `None` before touching the session (no read, no
write, state unchanged) — the same return value as when the record is not
found. -/
theorem update_by_id_empty_dump {V : Type} (st : DbState V) (index : Nat)
    (values : List (DumpField V)) (flushRes : Py Unit)
    (h : model_dump_upd values = []) :
    update_by_id st index values flushRes = (st, Py.ok none)
    ∧ (∀ (st2 : DbState V) (idx2 : Nat) (vals2 : List (DumpField V)) (f2 : Py Unit),
        storeGet st2.store idx2 = none →
        (update_by_id st2 idx2 vals2 f2).2 = Py.ok none) := by
  constructor
  · simp [update_by_id, h]
  · intro st2 idx2 vals2 f2 hget
    by_cases hd : (model_dump_upd vals2).isEmpty
    · simp [update_by_id, hd]
    · simp [update_by_id, hd, hget]

/-- Witness for C10 at a concrete input: a schema whose only field is
unset dumps to nothing, and `update_by_id` returns `None` with the session
state untouched. -/
theorem update_by_id_empty_dump_witness :
    update_by_id (⟨[(1, [(("name" : String), (0 : Nat))])], []⟩ : DbState Nat) 1
        [⟨("name"), false, some 5⟩] (Py.ok ())
      = (⟨[(1, [(("name" : String), (0 : Nat))])], []⟩, Py.ok none) :=
  (update_by_id_empty_dump (⟨[(1, [(("name" : String), (0 : Nat))])], []⟩ : DbState Nat)
      1 [⟨("name"), false, some 5⟩] (Py.ok ()) rfl).1

end BigSQLAsync
